import Mathlib

/-!
Verification of the message-rendering core of the llm-council frontend
(`src/frontend/src/components/ChatInterface.jsx`).

The JSX component is shallowly embedded: display output is a `Fragment`
tree, React `memo` cells become an explicit cached-state step function,
event handlers become pure functions from their inputs to a result record.
-/

namespace LLMCouncil

/-- Role discriminant of a message: user or assistant. -/
inductive Role where
  | user
  | assistant
deriving DecidableEq, Repr

/-- The `loading` object of an assistant message: `{stage1, stage2, stage3}`
boolean flags. -/
structure LoadingFlags where
  stage1 : Bool
  stage2 : Bool
  stage3 : Bool
deriving DecidableEq, Repr

/-- The `metadata` object of an assistant message, as read by
`AssistantMessage`: `label_to_model` (an association of anonymized labels to
model names) and `aggregate_rankings`. -/
structure Metadata where
  label_to_model : List (String × String)
  aggregate_rankings : List String
deriving DecidableEq, Repr

/-- One conversation entry. User messages use `content`; assistant messages
use the stage slots, `loading` and `metadata` (all possibly absent, as in the
JS objects where fields may be `undefined`). -/
structure Message where
  role : Role
  content : String
  stage1 : Option (List (String × String))
  stage2 : Option (List (String × String))
  stage3 : Option String
  loading : Option LoadingFlags
  metadata : Option Metadata
deriving DecidableEq, Repr

/-- Wrapper for `conversation.messages`. -/
structure Conversation where
  messages : List Message
deriving DecidableEq, Repr

/-- Accessor for `msg.loading?.stage1` — optional chaining: `false` when
`loading` is absent. -/
def Message.loadingStage1 (m : Message) : Bool :=
  match m.loading with
  | some f => f.stage1
  | none => false

/-- Accessor for `msg.loading?.stage2`. -/
def Message.loadingStage2 (m : Message) : Bool :=
  match m.loading with
  | some f => f.stage2
  | none => false

/-- Accessor for `msg.loading?.stage3`. -/
def Message.loadingStage3 (m : Message) : Bool :=
  match m.loading with
  | some f => f.stage3
  | none => false

/-- Accessor for `msg.metadata?.label_to_model`. -/
def Message.labelToModel (m : Message) : Option (List (String × String)) :=
  match m.metadata with
  | some md => some md.label_to_model
  | none => none

/-- Accessor for `msg.metadata?.aggregate_rankings`. -/
def Message.aggregateRankings (m : Message) : Option (List String) :=
  match m.metadata with
  | some md => some md.aggregate_rankings
  | none => none

/-- Display fragments. `node cls children` is a `<div className={cls}>`;
`spinner` is the spinner div; `markdown` is the `ReactMarkdown` collaborator
applied to literal text; `stage1View`/`stage2View`/`stage3View` are the
external `Stage1`/`Stage2`/`Stage3` components applied to their props. -/
inductive Fragment where
  | text (s : String)
  | spinner
  | markdown (content : String)
  | stage1View (responses : List (String × String))
  | stage2View (rankings : List (String × String))
      (labelToModel : Option (List (String × String)))
      (aggregateRankings : Option (List String))
  | stage3View (finalResponse : String)
  | node (cls : String) (children : List Fragment)

/-- The `UserMessage` component body (lines 12-25). -/
def renderUserMessage (content : String) : Fragment :=
  .node "message-group"
    [.node "user-message"
      [.node "message-label" [.text "You"],
       .node "message-content"
         [.node "markdown-content" [.markdown content]]]]

/-- The stage-loading indicator div rendered for an in-flight stage. -/
def stageLoading (caption : String) : Fragment :=
  .node "stage-loading" [.spinner, .text caption]

/-- Stage-1 section of `AssistantMessage` (lines 34-41): a loading indicator
when `msg.loading?.stage1`, then `<Stage1/>` when `msg.stage1` is present. -/
def stage1Part (msg : Message) : List Fragment :=
  (if msg.loadingStage1 then
    [stageLoading "Running Stage 1: Collecting individual responses..."]
   else []) ++
  (match msg.stage1 with
   | some rs => [Fragment.stage1View rs]
   | none => [])

/-- Stage-2 section of `AssistantMessage` (lines 43-56). -/
def stage2Part (msg : Message) : List Fragment :=
  (if msg.loadingStage2 then
    [stageLoading "Running Stage 2: Peer rankings..."]
   else []) ++
  (match msg.stage2 with
   | some rk => [Fragment.stage2View rk msg.labelToModel msg.aggregateRankings]
   | none => [])

/-- Stage-3 section of `AssistantMessage` (lines 58-65). -/
def stage3Part (msg : Message) : List Fragment :=
  (if msg.loadingStage3 then
    [stageLoading "Running Stage 3: Final synthesis..."]
   else []) ++
  (match msg.stage3 with
   | some fr => [Fragment.stage3View fr]
   | none => [])

/-- The `AssistantMessage` component body (lines 28-68): the label followed by
the three stage sections. (`isActive` is not read by the body; it only feeds
the memo comparator.) -/
def renderAssistantMessage (msg : Message) : Fragment :=
  .node "message-group"
    [.node "assistant-message"
      (Fragment.node "message-label" [Fragment.text "LLM Council"] ::
        (stage1Part msg ++ stage2Part msg ++ stage3Part msg))]

/-! ### Memoized cells

React `memo` semantics, made explicit.  A cell holds the props of the last
committed render and the fragment it produced; the fragment is tagged with
the index of the evaluation that computed it, so that "same tag" states
object-reference reuse, not value equality.  On each evaluation the
comparator receives the last-rendered props and the incoming props; it
returning `true` skips the recompute and keeps the cached object. -/

/-- Props of the `AssistantMessage` memo component. -/
structure AssistantProps where
  msg : Message
  isActive : Bool

/-- The custom comparator of `AssistantMessage` (lines 69-74):
`if (prevProps.isActive || nextProps.isActive) return false; return true;` -/
def assistantPropsCompare (prevProps nextProps : AssistantProps) : Bool :=
  if prevProps.isActive || nextProps.isActive then false else true

/-- The default `memo` comparator for `UserMessage` (line 12): shallow
equality of the single `content` prop (string primitives compare by value
under `Object.is`). -/
def userPropsCompare (prevProps nextProps : String) : Bool :=
  prevProps == nextProps

/-- State of a memo cell: the props of the last committed render and the
cached fragment, tagged with the index `cachedAt` of the evaluation that
computed it. -/
structure MemoState (P : Type) where
  prevProps : P
  cached : Fragment
  cachedAt : Nat

/-- Mount: evaluation `0` always renders. -/
def memoInit (render : P → Fragment) (p : P) : MemoState P :=
  ⟨p, render p, 0⟩

/-- One re-evaluation, at index `n`, with incoming props `next`.  Returns the
new cell state and whether the fragment was recomputed.  When the comparator
accepts, the cell is untouched (React bails out and keeps the previously
rendered child, including its props). -/
def memoStep (render : P → Fragment) (compare : P → P → Bool)
    (n : Nat) (st : MemoState P) (next : P) : MemoState P × Bool :=
  if compare st.prevProps next then (st, false)
  else (⟨next, render next, n⟩, true)

/-- The assistant cell driven by an infinite schedule of prop evaluations:
`assistantCellState props n` is the cell state after evaluation `n`. -/
def assistantCellState (props : Nat → AssistantProps) : Nat → MemoState AssistantProps
  | 0 => memoInit (fun p => renderAssistantMessage p.msg) (props 0)
  | n + 1 =>
    (memoStep (fun p => renderAssistantMessage p.msg) assistantPropsCompare
      (n + 1) (assistantCellState props n) (props (n + 1))).1

/-- Whether evaluation `n+1` recomputed the assistant fragment. -/
def assistantRecomputed (props : Nat → AssistantProps) (n : Nat) : Bool :=
  (memoStep (fun p => renderAssistantMessage p.msg) assistantPropsCompare
    (n + 1) (assistantCellState props n) (props (n + 1))).2

/-- The user cell driven by a schedule of `content` props. -/
def userCellState (props : Nat → String) : Nat → MemoState String
  | 0 => memoInit renderUserMessage (props 0)
  | n + 1 =>
    (memoStep renderUserMessage userPropsCompare
      (n + 1) (userCellState props n) (props (n + 1))).1

/-- Whether evaluation `n+1` recomputed the user fragment. -/
def userRecomputed (props : Nat → String) (n : Nat) : Bool :=
  (memoStep renderUserMessage userPropsCompare
    (n + 1) (userCellState props n) (props (n + 1))).2

/-- Number of renderer invocations after evaluations `0..n`. -/
def userComputeCount (props : Nat → String) : Nat → Nat
  | 0 => 1
  | n + 1 => userComputeCount props n + (if userRecomputed props n then 1 else 0)

/-! ### Conversation List Controller (the `ChatInterface` body) -/

/-- A classified message cell, as instantiated by `conversation.messages.map`
(lines 136-142): user messages get a `UserMessage` cell, assistant messages
an `AssistantMessage` cell with its `isActive` flag. -/
inductive Cell where
  | userCell (content : String)
  | assistantCell (msg : Message) (isActive : Bool)

/-- The `isActive` flag a cell was given (`UserMessage` cells have none,
i.e. `false`). -/
def Cell.isActive : Cell → Bool
  | .userCell _ => false
  | .assistantCell _ a => a

/-- The map body of lines 136-142, with `i` the index of the head and
`lastIdx = messages.length - 1`: user messages become `UserMessage` cells;
assistant messages become `AssistantMessage` cells with
`isActive = isLoading && i === lastIdx`. -/
def classifyFrom (isLoading : Bool) (lastIdx : Nat) (i : Nat) :
    List Message → List Cell
  | [] => []
  | m :: ms =>
    (if m.role = Role.user then Cell.userCell m.content
     else Cell.assistantCell m (isLoading && i == lastIdx)) ::
    classifyFrom isLoading lastIdx (i + 1) ms

/-- The map `conversation.messages.map((msg, index) => ...)` of lines 136-142. -/
def classifyCells (isLoading : Bool) (msgs : List Message) : List Cell :=
  classifyFrom isLoading (msgs.length - 1) 0 msgs

/-- The fragment a cell displays (memoization affects recomputation, not the
displayed value). -/
def cellFragment : Cell → Fragment
  | .userCell c => renderUserMessage c
  | .assistantCell m _ => renderAssistantMessage m

/-- The `Start a conversation` empty-state (lines 131-134), shown for a
selected conversation with zero messages. -/
def startPlaceholder : Fragment :=
  .node "empty-state"
    [.text "Start a conversation",
     .text "Ask a question to consult the LLM Council"]

/-- Body of the messages container (lines 130-143): the empty-state
placeholder, or one fragment per classified message cell. -/
def bodyCells (c : Conversation) (isLoading : Bool) : List Fragment :=
  if c.messages.length == 0 then [startPlaceholder]
  else (classifyCells isLoading c.messages).map cellFragment

/-- The standalone `Consulting the council...` indicator (lines 145-150). -/
def loadingIndicator : Fragment :=
  .node "loading-indicator" [.spinner, .text "Consulting the council..."]

/-- The `messagesEndRef` div (line 152). -/
def scrollAnchor : Fragment := .node "messages-end" []

/-- Children of the messages container (lines 129-153): the body, then the
loading indicator when `isLoading`, then the scroll anchor. -/
def containerChildren (c : Conversation) (isLoading : Bool) : List Fragment :=
  bodyCells c isLoading ++
  (if isLoading then [loadingIndicator] else []) ++
  [scrollAnchor]

/-- The messages container div. -/
def messagesContainer (c : Conversation) (isLoading : Bool) : Fragment :=
  .node "messages-container" (containerChildren c isLoading)

/-- The input form (lines 155-183): the textarea (disabled while loading) and
the stop button while loading, else the send button (disabled when the
trimmed input is empty). -/
def inputForm (input : String) (isLoading : Bool) : Fragment :=
  .node "input-form"
    (Fragment.node "message-input" [.text input] ::
     (if isLoading then [Fragment.node "stop-button" [.text "Stop"]]
      else [Fragment.node "send-button" [.text "Send"]]))

/-- The no-conversation empty state (lines 116-125). -/
def welcomeView : Fragment :=
  .node "chat-interface"
    [.node "empty-state"
      [.text "Welcome to LLM Council",
       .text "Create a new conversation to get started"]]

/-- The `ChatInterface` component body: early return of the welcome view when
no conversation is selected (line 116), otherwise the messages container and
the input form. -/
def chatInterface (conversation : Option Conversation) (isLoading : Bool)
    (input : String) : Fragment :=
  match conversation with
  | none => welcomeView
  | some c =>
    .node "chat-interface" [messagesContainer c isLoading, inputForm input isLoading]

/-! ### Event handlers and effects -/

/-- Result of a submit attempt: the message sent through `onSendMessage`
(if any) and the input value afterwards. -/
structure SubmitResult where
  sent : Option String
  input : String
deriving DecidableEq, Repr

/-- Model of `String.prototype.trim`: strip leading and trailing whitespace. -/
def jsTrim (s : String) : String :=
  String.mk (((s.data.dropWhile Char.isWhitespace).reverse.dropWhile
    Char.isWhitespace).reverse)

/-- The `handleSubmit` handler (lines 101-107): sends and clears the input only when the
trimmed input is non-empty (JS truthiness of `input.trim()`) and not loading. -/
def handleSubmit (input : String) (isLoading : Bool) : SubmitResult :=
  if jsTrim input != "" && !isLoading then ⟨some input, ""⟩ else ⟨none, input⟩

/-- The send button disabled attribute (line 178): true when the trimmed
input is empty. -/
def sendButtonDisabled (input : String) : Bool :=
  jsTrim input == ""

/-- The textarea disabled attribute (line 163): disabled while loading. -/
def textareaDisabled (isLoading : Bool) : Bool :=
  isLoading

/-- Observable outcome of one run of the pending-input effect: the input
value afterwards, whether `onPendingInputConsumed` was called, and whether a
focus of the textarea was scheduled via `setTimeout(..., 0)`. -/
structure RecoveryResult where
  input : String
  consumed : Bool
  focusScheduled : Bool
deriving DecidableEq, Repr

/-- The pending-input effect (lines 93-99): when `pendingInput` is non-null
it overwrites the input with it, signals consumption, and schedules one
deferred focus; otherwise it does nothing. -/
def pendingInputEffect (pendingInput : Option String) (input : String) :
    RecoveryResult :=
  match pendingInput with
  | some s => ⟨s, true, true⟩
  | none => ⟨input, false, false⟩

/-! ### Stage-2 label resolution (modelled from the spec) -/

/-- Modelled from the spec: the `Stage2` component
(`src/frontend/src/components/Stage2.jsx`) is not under `src/`; only its call
site in `AssistantMessage` is.  Per the spec it "must render rankings using
human-readable model identities resolved through the mapping" and, for a
ranking label absent from the label-to-model mapping, "must degrade to
displaying the raw label rather than failing the whole render".  The
resolution step: look the label up in the mapping, falling back to the raw
label itself. -/
def resolveLabel (labelToModel : List (String × String)) (label : String) :
    String :=
  match labelToModel.lookup label with
  | some model => model
  | none => label

/-- Modelled from the spec: the stage-2 renderer displays one fragment per
referenced ranking label, each showing the resolved model identity (or the
raw label when unresolved).  Total by construction: no label can make it
fail. -/
def renderStage2Labels (labelToModel : List (String × String))
    (labels : List String) : List Fragment :=
  labels.map (fun l => Fragment.text (resolveLabel labelToModel l))

/-- Whether a fragment is the standalone loading-indicator div. -/
def isLoadingIndicatorFrag : Fragment → Bool
  | .node cls _ => cls == "loading-indicator"
  | _ => false

/-- How many standalone loading indicators a fragment list holds. -/
def countLoading (fs : List Fragment) : Nat :=
  (fs.filter isLoadingIndicatorFrag).length

/-! ### Lemmas about the memo cells -/

/-- After any evaluation, the `isActive` field of the stored props agrees
with the `isActive` of that evaluation's incoming props: on a recompute the
props are stored outright, and a bailout can only happen when both the stored
and the incoming `isActive` are `false`. -/
theorem assistantCellState_prevProps_isActive (props : Nat → AssistantProps) :
    ∀ n, (assistantCellState props n).prevProps.isActive = (props n).isActive := by
  intro n
  cases n with
  | zero => rfl
  | succ m =>
    show ((memoStep (fun p => renderAssistantMessage p.msg) assistantPropsCompare
      (m + 1) (assistantCellState props m) (props (m + 1))).1).prevProps.isActive = _
    unfold memoStep assistantPropsCompare
    cases h1 : (assistantCellState props m).prevProps.isActive <;>
      cases h2 : (props (m + 1)).isActive <;> simp [h1, h2]

/-- C1: at every pair of consecutive evaluations `n`, `n+1` of an
`AssistantMessage` cell, the fragment is recomputed exactly when `isActive`
holds at evaluation `n+1` or held at evaluation `n`; the memo comparator
accepts exactly when both are inactive, and in that case the cached fragment
object (same fragment, same computation tag) is reused. -/
theorem assistant_memo_recompute_iff (props : Nat → AssistantProps) (n : Nat) :
    assistantRecomputed props n = ((props n).isActive || (props (n + 1)).isActive)
    ∧ assistantPropsCompare (assistantCellState props n).prevProps (props (n + 1))
        = (!(props n).isActive && !(props (n + 1)).isActive)
    ∧ (assistantCellState props (n + 1)).cached
        = (if (props n).isActive || (props (n + 1)).isActive
           then renderAssistantMessage (props (n + 1)).msg
           else (assistantCellState props n).cached)
    ∧ (assistantCellState props (n + 1)).cachedAt
        = (if (props n).isActive || (props (n + 1)).isActive
           then n + 1
           else (assistantCellState props n).cachedAt) := by
  have hprev := assistantCellState_prevProps_isActive props n
  have hstate : assistantCellState props (n + 1)
      = (memoStep (fun p => renderAssistantMessage p.msg) assistantPropsCompare
          (n + 1) (assistantCellState props n) (props (n + 1))).1 := rfl
  unfold assistantRecomputed memoStep assistantPropsCompare
  rw [hstate]
  unfold memoStep assistantPropsCompare
  cases h1 : (props n).isActive <;> cases h2 : (props (n + 1)).isActive <;>
    simp [hprev, h1, h2]

/-- Under a constant `content` prop, the stored props of the `UserMessage`
cell stay equal to that content. -/
theorem userCellState_prevProps (props : Nat → String) (c : String)
    (hconst : ∀ k, props k = c) :
    ∀ n, (userCellState props n).prevProps = c := by
  intro n
  induction n with
  | zero => exact hconst 0
  | succ m ih =>
    show ((memoStep renderUserMessage userPropsCompare
      (m + 1) (userCellState props m) (props (m + 1))).1).prevProps = _
    unfold memoStep userPropsCompare
    rw [ih, hconst (m + 1)]
    simp [ih]

/-- Under a constant `content` prop, every re-evaluation of the `UserMessage`
cell bails out. -/
theorem userRecomputed_const (props : Nat → String) (c : String)
    (hconst : ∀ k, props k = c) :
    ∀ n, userRecomputed props n = false := by
  intro n
  unfold userRecomputed memoStep userPropsCompare
  rw [userCellState_prevProps props c hconst n, hconst (n + 1)]
  simp

/-- Under a constant `content` prop, a re-evaluation leaves the `UserMessage`
cell untouched. -/
theorem userCellState_const_step (props : Nat → String) (c : String)
    (hconst : ∀ k, props k = c) (n : Nat) :
    userCellState props (n + 1) = userCellState props n := by
  show (memoStep renderUserMessage userPropsCompare
    (n + 1) (userCellState props n) (props (n + 1))).1 = _
  unfold memoStep userPropsCompare
  rw [userCellState_prevProps props c hconst n, hconst (n + 1)]
  simp

/-- C4: a `UserMessage` cell evaluated any number of times with its (immutable)
content invokes the renderer exactly once — at mount.  Its displayed fragment
is always the mount-time object (computation tag `0`) and its value is the
markdown rendering of the content. -/
theorem user_memo_single_compute (props : Nat → String) (c : String)
    (hconst : ∀ k, props k = c) (n : Nat) :
    userComputeCount props n = 1
    ∧ (userCellState props n).cached = renderUserMessage c
    ∧ (userCellState props n).cachedAt = 0 := by
  induction n with
  | zero =>
    refine ⟨rfl, ?_, rfl⟩
    show renderUserMessage (props 0) = renderUserMessage c
    rw [hconst 0]
  | succ m ih =>
    obtain ⟨ihc, ihf, iht⟩ := ih
    have hre := userRecomputed_const props c hconst m
    have hst := userCellState_const_step props c hconst m
    refine ⟨?_, ?_, ?_⟩
    · show userComputeCount props m + (if userRecomputed props m then 1 else 0) = 1
      rw [hre, ihc]
      simp
    · rw [hst]
      exact ihf
    · rw [hst]
      exact iht

/-- Concrete run for `user_memo_single_compute`: three evaluations of a cell
whose content is always `"What is 2+2?"` keep one single computation. -/
theorem user_memo_single_compute_witness :
    ((fun _ : Nat => "What is 2+2?") 0 = "What is 2+2?")
    ∧ userComputeCount (fun _ => "What is 2+2?") 3 = 1
    ∧ (userCellState (fun _ => "What is 2+2?") 3).cached
        = renderUserMessage "What is 2+2?"
    ∧ (userCellState (fun _ => "What is 2+2?") 3).cachedAt = 0 := by
  have h := user_memo_single_compute (fun _ => "What is 2+2?") "What is 2+2?"
    (fun _ => rfl) 3
  exact ⟨rfl, h.1, h.2.1, h.2.2⟩

/-! ### Lemmas about the controller -/

/-- Length preservation: `classifyFrom` yields one cell per message. -/
theorem classifyFrom_length (isLoading : Bool) (lastIdx : Nat) :
    ∀ (ms : List Message) (i : Nat),
      (classifyFrom isLoading lastIdx i ms).length = ms.length := by
  intro ms
  induction ms with
  | nil => intro i; rfl
  | cons m rest ih =>
    intro i
    show (classifyFrom isLoading lastIdx (i + 1) rest).length + 1 = rest.length + 1
    rw [ih (i + 1)]

/-- The cell produced for the `k`-th message under `classifyFrom` starting at
index `i0`. -/
theorem classifyFrom_get (isLoading : Bool) (lastIdx : Nat) :
    ∀ (ms : List Message) (i0 k : Nat) (h : k < ms.length)
      (h2 : k < (classifyFrom isLoading lastIdx i0 ms).length),
      (classifyFrom isLoading lastIdx i0 ms).get ⟨k, h2⟩
        = (if (ms.get ⟨k, h⟩).role = Role.user
           then Cell.userCell (ms.get ⟨k, h⟩).content
           else Cell.assistantCell (ms.get ⟨k, h⟩) (isLoading && (i0 + k) == lastIdx)) := by
  intro ms
  induction ms with
  | nil =>
    intro i0 k h h2
    exact absurd h (Nat.not_lt_zero k)
  | cons m rest ih =>
    intro i0 k h h2
    cases k with
    | zero => simp [classifyFrom]
    | succ j =>
      have hj : j < rest.length := Nat.lt_of_succ_lt_succ h
      have hj2 : j < (classifyFrom isLoading lastIdx (i0 + 1) rest).length := by
        rw [classifyFrom_length]; exact hj
      show (classifyFrom isLoading lastIdx (i0 + 1) rest).get ⟨j, hj2⟩ = _
      rw [ih (i0 + 1) j hj hj2]
      have harith : i0 + 1 + j = i0 + (j + 1) := by omega
      rw [harith]
      rfl

/-- C2: the controller maps messages in sequence order, one cell per message,
and cell `k` carries `isActive` exactly when the global loading flag is set,
`k` is the last index, and message `k` is an assistant message; every other
cell carries `isActive = false`. -/
theorem controller_isActive_classification (isLoading : Bool)
    (msgs : List Message) (k : Nat) (h : k < msgs.length)
    (h2 : k < (classifyCells isLoading msgs).length) :
    (classifyCells isLoading msgs).length = msgs.length
    ∧ ((classifyCells isLoading msgs).get ⟨k, h2⟩).isActive
        = (isLoading && (k == msgs.length - 1)
           && ((msgs.get ⟨k, h⟩).role == Role.assistant)) := by
  constructor
  · exact classifyFrom_length isLoading (msgs.length - 1) msgs 0
  · have h3 : k < (classifyFrom isLoading (msgs.length - 1) 0 msgs).length := by
      rw [classifyFrom_length]; exact h
    show ((classifyFrom isLoading (msgs.length - 1) 0 msgs).get ⟨k, h3⟩).isActive = _
    rw [classifyFrom_get isLoading (msgs.length - 1) msgs 0 k h h3]
    rcases hrole : (msgs.get ⟨k, h⟩).role with _ | _
    · simp [Cell.isActive, hrole]
    · simp only [hrole, if_neg (by simp : ¬(Role.assistant = Role.user))]
      show (isLoading && (0 + k) == msgs.length - 1) = _
      rw [Nat.zero_add]
      simp [Bool.and_assoc]

/-- Concrete run for `controller_isActive_classification`: a two-message
conversation (user question, assistant answer) while loading marks only the
final assistant cell active. -/
theorem controller_isActive_classification_witness :
    ((classifyCells true
        [⟨Role.user, "q", none, none, none, none, none⟩,
         ⟨Role.assistant, "", none, none, none, none, none⟩]).length = 2)
    ∧ ((classifyCells true
        [⟨Role.user, "q", none, none, none, none, none⟩,
         ⟨Role.assistant, "", none, none, none, none, none⟩]).get
          ⟨1, by decide⟩).isActive = true
    ∧ ((classifyCells true
        [⟨Role.user, "q", none, none, none, none, none⟩,
         ⟨Role.assistant, "", none, none, none, none, none⟩]).get
          ⟨0, by decide⟩).isActive = false := by
  refine ⟨?_, ?_, ?_⟩
  · exact (controller_isActive_classification true
      [⟨Role.user, "q", none, none, none, none, none⟩,
       ⟨Role.assistant, "", none, none, none, none, none⟩] 1
      (by decide) (by decide)).1
  · rw [(controller_isActive_classification true
      [⟨Role.user, "q", none, none, none, none, none⟩,
       ⟨Role.assistant, "", none, none, none, none, none⟩] 1
      (by decide) (by decide)).2]
    rfl
  · rw [(controller_isActive_classification true
      [⟨Role.user, "q", none, none, none, none, none⟩,
       ⟨Role.assistant, "", none, none, none, none, none⟩] 0
      (by decide) (by decide)).2]
    rfl

/-! ### Stage sections -/

/-- C3: each stage section of an `AssistantMessage` is a loading indicator
when that stage's flag is set, the rendered stage data when present, and
empty when neither holds; the composed cell is the `LLM Council` label
followed by the stage-1, stage-2 and stage-3 sections in that order. -/
theorem assistant_stage_sections (msg : Message) :
    (renderAssistantMessage msg
      = Fragment.node "message-group"
          [Fragment.node "assistant-message"
            ([Fragment.node "message-label" [Fragment.text "LLM Council"]]
              ++ stage1Part msg ++ stage2Part msg ++ stage3Part msg)])
    ∧ (msg.loadingStage1 = true → msg.stage1 = none →
        stage1Part msg
          = [stageLoading "Running Stage 1: Collecting individual responses..."])
    ∧ (∀ d, msg.loadingStage1 = false → msg.stage1 = some d →
        stage1Part msg = [Fragment.stage1View d])
    ∧ (msg.loadingStage1 = false → msg.stage1 = none → stage1Part msg = [])
    ∧ (msg.loadingStage2 = true → msg.stage2 = none →
        stage2Part msg = [stageLoading "Running Stage 2: Peer rankings..."])
    ∧ (∀ d, msg.loadingStage2 = false → msg.stage2 = some d →
        stage2Part msg
          = [Fragment.stage2View d msg.labelToModel msg.aggregateRankings])
    ∧ (msg.loadingStage2 = false → msg.stage2 = none → stage2Part msg = [])
    ∧ (msg.loadingStage3 = true → msg.stage3 = none →
        stage3Part msg = [stageLoading "Running Stage 3: Final synthesis..."])
    ∧ (∀ d, msg.loadingStage3 = false → msg.stage3 = some d →
        stage3Part msg = [Fragment.stage3View d])
    ∧ (msg.loadingStage3 = false → msg.stage3 = none → stage3Part msg = []) := by
  refine ⟨by simp [renderAssistantMessage], ?_, ?_, ?_, ?_, ?_, ?_, ?_, ?_, ?_⟩
  all_goals
    first
    | (intro hflag hdata; simp [stage1Part, stage2Part, stage3Part, hflag, hdata])
    | (intro d hflag hdata; simp [stage1Part, stage2Part, stage3Part, hflag, hdata])

/-- Concrete run for `assistant_stage_sections`: a message with stage-1 data
present, stage 2 in flight and stage 3 untouched shows exactly the stage-1
view, the stage-2 loading indicator, and nothing for stage 3. -/
theorem assistant_stage_sections_witness :
    stage1Part ⟨Role.assistant, "", some [("model-a", "r")], none, none,
        some ⟨false, true, false⟩, none⟩
      = [Fragment.stage1View [("model-a", "r")]]
    ∧ stage2Part ⟨Role.assistant, "", some [("model-a", "r")], none, none,
        some ⟨false, true, false⟩, none⟩
      = [stageLoading "Running Stage 2: Peer rankings..."]
    ∧ stage3Part ⟨Role.assistant, "", some [("model-a", "r")], none, none,
        some ⟨false, true, false⟩, none⟩ = []
    ∧ stage1Part ⟨Role.assistant, "", none, none, none,
        some ⟨true, false, false⟩, none⟩
      = [stageLoading "Running Stage 1: Collecting individual responses..."] := by
  refine ⟨?_, ?_, ?_, ?_⟩
  · exact (assistant_stage_sections ⟨Role.assistant, "", some [("model-a", "r")],
      none, none, some ⟨false, true, false⟩, none⟩).2.2.1 [("model-a", "r")] rfl rfl
  · exact (assistant_stage_sections ⟨Role.assistant, "", some [("model-a", "r")],
      none, none, some ⟨false, true, false⟩, none⟩).2.2.2.2.1 rfl rfl
  · exact (assistant_stage_sections ⟨Role.assistant, "", some [("model-a", "r")],
      none, none, some ⟨false, true, false⟩, none⟩).2.2.2.2.2.2.2.2.2 rfl rfl
  · exact (assistant_stage_sections ⟨Role.assistant, "", none, none, none,
      some ⟨true, false, false⟩, none⟩).2.1 rfl rfl

/-! ### Input recovery, submission guards, stage-2 label fallback -/

/-- C5: a non-null pending input overwrites whatever the user had typed
(last-cancellation-wins), signals consumption immediately, and schedules a
single deferred focus; once consumed the slot is null, so the next run of the
effect changes nothing and fires no further restoration or focus. -/
theorem pending_input_recovery (s typed : String) :
    pendingInputEffect (some s) typed = ⟨s, true, true⟩
    ∧ pendingInputEffect none ((pendingInputEffect (some s) typed).input)
        = ⟨s, false, false⟩
    ∧ (pendingInputEffect none typed).input = typed := by
  exact ⟨rfl, rfl, rfl⟩

/-- C6: while a generation is active (`isLoading = true`), a submit attempt
sends nothing and leaves the input value unchanged, and the textarea is
disabled. -/
theorem submit_noop_while_loading (input : String) :
    handleSubmit input true = ⟨none, input⟩
    ∧ textareaDisabled true = true := by
  constructor
  · unfold handleSubmit
    simp
  · rfl

/-- C7: a ranking label absent from the label-to-model mapping is displayed
raw — the resolution falls back to the label itself — and the stage-2 label
renderer is total: it yields one fragment per referenced label, whatever the
labels are. -/
theorem stage2_unknown_label_raw (labelToModel : List (String × String))
    (label : String) (h : labelToModel.lookup label = none) :
    resolveLabel labelToModel label = label
    ∧ renderStage2Labels labelToModel [label] = [Fragment.text label]
    ∧ ∀ labels, (renderStage2Labels labelToModel labels).length = labels.length := by
  have hres : resolveLabel labelToModel label = label := by
    unfold resolveLabel
    rw [h]
  refine ⟨hres, ?_, ?_⟩
  · unfold renderStage2Labels
    rw [List.map_singleton, hres]
  · intro labels
    unfold renderStage2Labels
    rw [List.length_map]

/-- Concrete run for `stage2_unknown_label_raw` (Scenario E): a ranking
referencing label `F` while the mapping only holds `A`..`E` renders `F`
literally. -/
theorem stage2_unknown_label_raw_witness :
    resolveLabel [("A", "m1"), ("B", "m2"), ("C", "m3"), ("D", "m4"), ("E", "m5")] "F" = "F"
    ∧ renderStage2Labels [("A", "m1"), ("B", "m2"), ("C", "m3"), ("D", "m4"), ("E", "m5")] ["F"]
        = [Fragment.text "F"] := by
  have h := stage2_unknown_label_raw
    [("A", "m1"), ("B", "m2"), ("C", "m3"), ("D", "m4"), ("E", "m5")] "F" (by decide)
  exact ⟨h.1, h.2.1⟩

/-! ### Placeholders, loading indicator, submission guards -/

/-- C8: with no conversation selected the controller renders only the
top-level welcome placeholder — the classifier runs on no messages at all —
and a selected conversation with zero messages gets the distinct
`Start a conversation` placeholder as its sole body, with zero message
cells. -/
theorem empty_conversation_placeholders (isLoading : Bool) (input : String) :
    chatInterface none isLoading input
      = Fragment.node "chat-interface"
          [Fragment.node "empty-state"
            [Fragment.text "Welcome to LLM Council",
             Fragment.text "Create a new conversation to get started"]]
    ∧ classifyCells isLoading [] = []
    ∧ bodyCells ⟨[]⟩ isLoading
        = [Fragment.node "empty-state"
            [Fragment.text "Start a conversation",
             Fragment.text "Ask a question to consult the LLM Council"]] := by
  refine ⟨rfl, rfl, ?_⟩
  unfold bodyCells startPlaceholder
  simp

/-- A message cell's fragment is never the loading indicator: it is always a
`message-group` div. -/
theorem cellFragment_not_loadingIndicator (cell : Cell) :
    isLoadingIndicatorFrag (cellFragment cell) = false := by
  cases cell <;> rfl

/-- The body of the messages container holds no loading indicator, whatever
the conversation and flag. -/
theorem countLoading_bodyCells (c : Conversation) (isLoading : Bool) :
    countLoading (bodyCells c isLoading) = 0 := by
  unfold bodyCells
  rcases h : c.messages.length == 0 with _ | _
  · simp only [h, Bool.false_eq_true, if_false]
    unfold countLoading
    generalize classifyCells isLoading c.messages = cells
    induction cells with
    | nil => rfl
    | cons cell rest ih =>
      rw [List.map_cons, List.filter_cons]
      rw [cellFragment_not_loadingIndicator cell]
      simpa using ih
  · simp only [h, if_true]
    rfl

/-- C9: the messages container carries exactly one standalone `Consulting the
council...` indicator when the overall loading flag is set and none when it
is clear; when set, the indicator sits after every message cell (only the
scroll anchor follows it). -/
theorem loading_indicator_appended (c : Conversation) (isLoading : Bool) :
    countLoading (containerChildren c isLoading)
      = (if isLoading then 1 else 0)
    ∧ containerChildren c true = bodyCells c true ++ [loadingIndicator, scrollAnchor]
    ∧ containerChildren c false = bodyCells c false ++ [scrollAnchor] := by
  refine ⟨?_, ?_, ?_⟩
  · unfold containerChildren countLoading
    rw [List.filter_append, List.filter_append, List.length_append,
      List.length_append]
    have hb : (List.filter isLoadingIndicatorFrag (bodyCells c isLoading)).length = 0 :=
      countLoading_bodyCells c isLoading
    rw [hb]
    cases isLoading <;> rfl
  · unfold containerChildren
    simp
  · unfold containerChildren
    simp

/-- C10: a submit attempt with blank (empty or all-whitespace) input sends
nothing and leaves the input unchanged — and the send control is disabled for
such input; with non-blank input while not loading, the exact input text is
sent and the input resets to empty. -/
theorem submit_blank_guard (input : String) (isLoading : Bool) :
    (jsTrim input = "" →
      handleSubmit input isLoading = ⟨none, input⟩
      ∧ sendButtonDisabled input = true)
    ∧ (jsTrim input ≠ "" →
      handleSubmit input false = ⟨some input, ""⟩
      ∧ sendButtonDisabled input = false) := by
  constructor
  · intro hblank
    constructor
    · unfold handleSubmit
      simp [hblank]
    · unfold sendButtonDisabled
      simp [hblank]
  · intro hnonblank
    constructor
    · unfold handleSubmit
      simp [hnonblank]
    · unfold sendButtonDisabled
      simp [hnonblank]

/-- Concrete runs for `submit_blank_guard`: an all-whitespace input is never
sent and keeps the send control disabled; `"What is 2+2?"` is sent verbatim
and the input clears. -/
theorem submit_blank_guard_witness :
    (handleSubmit "   " true = ⟨none, "   "⟩ ∧ sendButtonDisabled "   " = true)
    ∧ (handleSubmit "What is 2+2?" false = ⟨some "What is 2+2?", ""⟩
       ∧ sendButtonDisabled "What is 2+2?" = false) := by
  constructor
  · exact (submit_blank_guard "   " true).1 (by decide)
  · exact (submit_blank_guard "What is 2+2?" false).2 (by decide)

end LLMCouncil
